import Mathlib

/-!
Shallow embedding of the CORD-19 analysis repository
(`data_Analysis.py`: class `CORD19Analyzer`; `app.py`: the data-quality
metrics of the Sample Data section).

The analyzer holds two optional tables (`df`, the raw rows loaded from the
CSV file, and `df_clean`, the cleaned rows) and exposes operations that
read them.  Pandas column operations are modelled row-wise: every column
transformation in `clean_data` is per-row and index-preserving, so the
whole cleaning step is a `List.map` of a per-record function.  Pandas
`Series.value_counts` is modelled as: unique values in first-encounter
order, paired with their occurrence counts, stably sorted by count in
descending order (ties keep first-encounter order).  `DataFrame.head(n)`
is modelled with its actual pandas semantics: for `n ≥ 0` the first `n`
rows, for `n < 0` all rows except the last `|n|` (Python slice `[:n]`).
-/

namespace CORD19

/-- A calendar date as produced by `pd.to_datetime`. -/
structure PDate where
  year : Nat
  month : Nat
  day : Nat
deriving DecidableEq, Repr

/-- Numeric value of an ASCII digit, `none` on a non-digit. -/
def digitVal (c : Char) : Option Nat :=
  if c.isDigit then some (c.toNat - 48) else none

/-- Number of days in a month, Gregorian leap rule (as validated by
`pd.to_datetime`). -/
def daysInMonth (y m : Nat) : Nat :=
  if m = 2 then (if (y % 4 = 0 ∧ y % 100 ≠ 0) ∨ y % 400 = 0 then 29 else 28)
  else if m = 4 ∨ m = 6 ∨ m = 9 ∨ m = 11 then 30 else 31

/-- Parse an ISO `YYYY-MM-DD` date string, validating month and day
ranges; `none` on any malformed input.  This models the ISO-date subset
of `pd.to_datetime(..., errors='coerce')` (data_Analysis.py lines 64-66):
any value the parser rejects becomes `none` (pandas `NaT`), never an
error. -/
def parseISO (s : String) : Option PDate :=
  match s.data with
  | [a, b, c, d, '-', e, f, '-', g, h] => do
      let ka ← digitVal a
      let kb ← digitVal b
      let kc ← digitVal c
      let kd ← digitVal d
      let ke ← digitVal e
      let kf ← digitVal f
      let kg ← digitVal g
      let kh ← digitVal h
      let y := ka * 1000 + kb * 100 + kc * 10 + kd
      let m := ke * 10 + kf
      let dd := kg * 10 + kh
      if 1 ≤ m ∧ m ≤ 12 ∧ 1 ≤ dd ∧ dd ≤ daysInMonth y m then
        some ⟨y, m, dd⟩
      else
        none
  | _ => none

/-- `pd.to_datetime` with `errors='coerce'` applied to a nullable cell:
a missing cell stays missing (`NaT`), a string is parsed, failures
coerce to `none`. -/
def parseDate? : Option String → Option PDate
  | none => none
  | some s => parseISO s

/-- One row of the source table: the columns the analyzer reads.  All
are nullable text in the raw CSV. -/
structure RawRecord where
  title : Option String
  abstract : Option String
  journal : Option String
  publish_time : Option String
  source_x : Option String
deriving DecidableEq, Repr

/-- A cleaned row: the raw columns of interest plus the derived columns
added by `clean_data` (data_Analysis.py lines 53-80).  `publish_time` is
overwritten with the parsed date (`none` = `NaT`); `year`/`month` are
`none` exactly when the parse failed (pandas `NaN` from `.dt.year` on
`NaT`). -/
structure CleanedRecord where
  title : Option String
  abstract : Option String
  journal : Option String
  publish_time : Option PDate
  source_x : Option String
  year : Option Nat
  month : Option Nat
  abstract_word_count : Nat
  journal_clean : Option String
deriving DecidableEq, Repr

/-- Maximal runs of characters satisfying `p`, in order (the accumulator
holds the current run, reversed). -/
def splitRunsBy (p : Char → Bool) : List Char → List Char → List (List Char)
  | [], acc => if acc.isEmpty then [] else [acc.reverse]
  | c :: cs, acc =>
      if p c then splitRunsBy p cs (c :: acc)
      else if acc.isEmpty then splitRunsBy p cs acc
      else acc.reverse :: splitRunsBy p cs []

/-- Python `len(str(x).split())`: number of maximal non-empty
whitespace-separated tokens. -/
def pySplitCount (s : String) : Nat :=
  (splitRunsBy (fun c => !c.isWhitespace) s.data []).length

/-- Python `str.lower()` on a character list (ASCII case mapping, which
covers the journal and title data the analyzer handles). -/
def pyLowerChars (cs : List Char) : List Char :=
  cs.map Char.toLower

/-- Python `str.lower()`. -/
def pyLower (s : String) : String :=
  String.mk (pyLowerChars s.data)

/-- Python `str.strip()`: drop leading and trailing whitespace. -/
def pyStrip (s : String) : String :=
  String.mk (((s.data.dropWhile Char.isWhitespace).reverse.dropWhile
    Char.isWhitespace).reverse)

/-- The per-row transformation applied by `clean_data`
(data_Analysis.py lines 62-77): parse `publish_time`, derive
`year`/`month` from the parsed date, count whitespace tokens of the
abstract (0 when absent, per the `pd.notnull` guard on line 73), and
lowercase + strip the journal name (pandas `.str` operations propagate
missing values, so an absent journal stays absent). -/
def cleanRecord (r : RawRecord) : CleanedRecord :=
  let d := parseDate? r.publish_time
  { title := r.title
    abstract := r.abstract
    journal := r.journal
    publish_time := d
    source_x := r.source_x
    year := d.map (fun p => p.year)
    month := d.map (fun p => p.month)
    abstract_word_count :=
      match r.abstract with
      | none => 0
      | some a => pySplitCount a
    journal_clean := r.journal.map (fun j => pyStrip (pyLower j)) }

/-- The analyzer's instance state: `self.df` (raw rows, `none` before a
successful `load_data`) and `self.df_clean` (`none` before
`clean_data`). -/
structure AnalyzerState where
  df : Option (List RawRecord)
  df_clean : Option (List CleanedRecord)
deriving DecidableEq, Repr

/-- `load_data` (data_Analysis.py lines 18-26).  The file system is a
function from path to `Option` raw rows; `none` stands for any exception
from `pd.read_csv` (missing, unreadable or unparsable file).  On success
`self.df` is assigned and `True` returned; on failure the exception is
caught, nothing was assigned (the assignment happens only after
`pd.read_csv` returns), and `False` is returned. -/
def load_data (fs : String → Option (List RawRecord)) (path : String)
    (s : AnalyzerState) : AnalyzerState × Bool :=
  match fs path with
  | some rows => ({ s with df := some rows }, true)
  | none => (s, false)

/-- `clean_data` (data_Analysis.py lines 53-80): guard on `self.df is
None` (returns `None`), otherwise build `self.df_clean` from a copy of
the raw rows by the per-row transformation and return it. -/
def clean_data (s : AnalyzerState) : AnalyzerState × Option (List CleanedRecord) :=
  match s.df with
  | none => (s, none)
  | some rows =>
      let cl := rows.map cleanRecord
      ({ s with df_clean := some cl }, some cl)

/-- Unique values of a list in first-encounter order (accumulator form). -/
def firstUniquesAux [DecidableEq α] : List α → List α → List α
  | [], acc => acc.reverse
  | x :: xs, acc =>
      if x ∈ acc then firstUniquesAux xs acc else firstUniquesAux xs (x :: acc)

/-- Unique values of a list in first-encounter order. -/
def firstUniques [DecidableEq α] (xs : List α) : List α :=
  firstUniquesAux xs []

/-- Occurrences of `x` in `xs`. -/
def countEq [DecidableEq α] (x : α) (xs : List α) : Nat :=
  xs.countP (fun y => decide (y = x))

/-- Stable descending insertion by count: `p` goes after every entry
with a count ≥ its own. -/
def insertDescByCount [DecidableEq α] (p : α × Nat) :
    List (α × Nat) → List (α × Nat)
  | [] => [p]
  | q :: qs => if p.2 ≤ q.2 then q :: insertDescByCount p qs else p :: q :: qs

/-- Stable insertion sort, descending by count. -/
def sortDescByCount [DecidableEq α] : List (α × Nat) → List (α × Nat)
  | [] => []
  | x :: xs => insertDescByCount x (sortDescByCount xs)

/-- Pandas `Series.value_counts()`: one entry per distinct value with
its occurrence count, sorted by count descending (stable over
first-encounter order). -/
def value_counts [DecidableEq α] (xs : List α) : List (α × Nat) :=
  sortDescByCount ((firstUniques xs).map (fun u => (u, countEq u xs)))

/-- Stable ascending insertion by key. -/
def insertAscByKey (p : Nat × Nat) : List (Nat × Nat) → List (Nat × Nat)
  | [] => [p]
  | q :: qs => if q.1 ≤ p.1 then q :: insertAscByKey p qs else p :: q :: qs

/-- Pandas `.sort_index()` on a counts series with `Nat` keys. -/
def sort_index : List (Nat × Nat) → List (Nat × Nat)
  | [] => []
  | x :: xs => insertAscByKey x (sort_index xs)

/-- Pandas `DataFrame.head(n)` / `Series.head(n)`, i.e. Python slice
`[:n]`: the first `n` rows for `n ≥ 0`, all but the last `|n|` rows for
`n < 0`. -/
def pdHead (n : Int) (xs : List α) : List α :=
  if 0 ≤ n then xs.take n.toNat else xs.take (xs.length - n.natAbs)

/-- `analyze_publications_over_time` (data_Analysis.py lines 82-110),
data part: guard on `df_clean is None`; otherwise yearly counts
(`value_counts().sort_index()`, missing years dropped by pandas) and the
monthly counts of the latest year (`max` skips missing; when every year
is missing the equality filter selects nothing). -/
def analyze_publications_over_time (s : AnalyzerState) :
    AnalyzerState × Option (List (Nat × Nat) × List (Nat × Nat)) :=
  match s.df_clean with
  | none => (s, none)
  | some rows =>
      let years := rows.filterMap (fun r => r.year)
      let yearly := sort_index (value_counts years)
      let monthly :=
        match years.max? with
        | none => []
        | some ly =>
            sort_index (value_counts
              ((rows.filter (fun r => decide (r.year = some ly))).filterMap
                (fun r => r.month)))
      (s, some (yearly, monthly))

/-- The ranked journal table: `value_counts` of the `journal_clean`
column (pandas drops missing values). -/
def journalTable (rows : List CleanedRecord) : List (String × Nat) :=
  value_counts (rows.filterMap (fun r => r.journal_clean))

/-- `analyze_journals` (data_Analysis.py lines 112-127), data part:
guard on `df_clean is None`; otherwise
`value_counts` of `journal_clean` truncated with `.head(top_n)`. -/
def analyze_journals (top_n : Int) (s : AnalyzerState) :
    AnalyzerState × Option (List (String × Nat)) :=
  match s.df_clean with
  | none => (s, none)
  | some rows => (s, some (pdHead top_n (journalTable rows)))

/-- A regex word character of `\b` (ASCII range, matching the ASCII-only
`[a-zA-Z]` tokens the pattern can produce). -/
def isWordChar (c : Char) : Bool :=
  c.isAlpha || c.isDigit || c == '_'

/-- `re.findall(r'\b[a-zA-Z]{3,}\b', s)` on a character list: the
maximal word-character runs that consist solely of ASCII letters and
have length ≥ 3 (a letter run adjacent to a digit or underscore has no
`\b` boundary there and is not matched). -/
def findWords (cs : List Char) : List String :=
  ((splitRunsBy isWordChar cs []).filter
      (fun r => decide (3 ≤ r.length) && r.all Char.isAlpha)).map
    (fun r => String.mk r)

/-- Python `' '.join(xs)` at the character level. -/
def joinSpaced : List (List Char) → List Char
  | [] => []
  | [x] => x
  | x :: xs => x ++ ' ' :: joinSpaced xs

/-- `collections.Counter` as an association list: distinct words in
first-encounter order, each with its count. -/
def counterPairs (ws : List String) : List (String × Nat) :=
  (firstUniques ws).map (fun w => (w, countEq w ws))

/-- The stop-word set of `create_word_cloud` (data_Analysis.py lines
143-146; the source set literal lists 'from' and 'has' twice, which a
Python set collapses). -/
def stop_words : List String :=
  ["the", "and", "of", "in", "to", "a", "for", "with", "on",
   "as", "by", "from", "that", "this", "is", "are", "was", "were",
   "be", "been", "have", "has", "had", "but", "not", "which",
   "their", "can", "we", "our", "an", "will", "study"]

/-- The `filtered_words` mapping of `create_word_cloud`
(data_Analysis.py lines 136-149): join the non-missing cells of the text
column with spaces, lowercase, tokenize, count, then keep the words that
are not stop words and occur more than 10 times. -/
def filteredWordsOf (cells : List (Option String)) : List (String × Nat) :=
  let all_text := joinSpaced ((cells.filterMap id).map String.data)
  let words := findWords (pyLowerChars all_text)
  (counterPairs words).filter
    (fun p => !(stop_words.contains p.1) && decide (10 < p.2))

/-- The text column choices the app offers (`app.py` lines 193-196). -/
inductive TextCol
  | title
  | abstract
deriving DecidableEq, Repr

/-- Cell extraction for a text column. -/
def extractCol : TextCol → CleanedRecord → Option String
  | TextCol.title, r => r.title
  | TextCol.abstract, r => r.abstract

/-- Outcome of a `create_word_cloud` call: the `None` return of the
not-ready guard, the uncaught `ValueError` that
`WordCloud.generate_from_frequencies` raises when `filtered_words` is
empty, or a normal return carrying the `filtered_words` mapping. -/
inductive WordCloudOutcome
  | noneReturn
  | valueError
  | table (t : List (String × Nat))
deriving DecidableEq, Repr

/-- The word table of an outcome, `[]` when nothing was returned (guard
or raise). -/
def WordCloudOutcome.tableD : WordCloudOutcome → List (String × Nat)
  | WordCloudOutcome.table t => t
  | _ => []

/-- `create_word_cloud` (data_Analysis.py lines 129-164), data part:
guard on `df_clean is None` (returns `None`); otherwise
`WordCloud(...).generate_from_frequencies(filtered_words)` (lines
152-157) raises `ValueError` when `filtered_words` is empty — the
exception propagates, nothing is returned — and on a nonempty mapping
the function returns `filtered_words` itself.  The `max_words` argument
is passed only to the `WordCloud` renderer (line 156; its emptiness
check precedes its own truncation) and does not enter the returned
mapping. -/
def create_word_cloud (col : TextCol) (max_words : Nat) (s : AnalyzerState) :
    AnalyzerState × WordCloudOutcome :=
  match s.df_clean with
  | none => (s, WordCloudOutcome.noneReturn)
  | some rows =>
      let _ := max_words
      let fw := filteredWordsOf (rows.map (extractCol col))
      if fw.isEmpty then (s, WordCloudOutcome.valueError)
      else (s, WordCloudOutcome.table fw)

/-- `analyze_sources` (data_Analysis.py lines 166-182), data part:
guard on `df_clean is None`; otherwise `value_counts` of `source_x`
truncated with `.head(10)`. -/
def analyze_sources (s : AnalyzerState) :
    AnalyzerState × Option (List (String × Nat)) :=
  match s.df_clean with
  | none => (s, none)
  | some rows => (s, some (pdHead 10 (value_counts (rows.filterMap (fun r => r.source_x)))))

/-- The projection `get_sample_data` returns (all five sample columns
exist in the cleaned table whenever the raw table had them). -/
structure SampleRow where
  title : Option String
  abstract : Option String
  journal : Option String
  year : Option Nat
  source_x : Option String
deriving DecidableEq, Repr

/-- `get_sample_data` (data_Analysis.py lines 184-193): guard on
`df_clean is None`; otherwise the first `n` rows of the sample-column
projection (`.head(n)`). -/
def get_sample_data (n : Int) (s : AnalyzerState) :
    AnalyzerState × Option (List SampleRow) :=
  match s.df_clean with
  | none => (s, none)
  | some rows =>
      (s, some (pdHead n (rows.map
        (fun r => { title := r.title, abstract := r.abstract,
                    journal := r.journal, year := r.year,
                    source_x := r.source_x }))))

/-- A numpy floating-point scalar restricted to the values the
completeness ratio can take: an exact rational, `nan`, or `inf`.  The
`nan`/`inf` constructors record numpy's behaviour on division by zero
(a suppressed `RuntimeWarning`, never a raised exception). -/
inductive PyFloat
  | val (q : ℚ)
  | nan
  | inf
deriving DecidableEq, Repr

/-- Numpy true division of two non-negative integer scalars
(`np.int64 / int`): division by zero yields `nan` for `0/0` and `inf`
otherwise, with the `RuntimeWarning` suppressed process-wide by
`warnings.filterwarnings('ignore')` (data_Analysis.py line 9) — no
exception is raised either way. -/
def npDivNat (a b : Nat) : PyFloat :=
  if b = 0 then (if a = 0 then PyFloat.nan else PyFloat.inf)
  else PyFloat.val ((a : ℚ) / (b : ℚ))

/-- Multiplication of a numpy scalar by a non-negative constant
(`nan * k = nan`, `inf * k = inf` for `k > 0`). -/
def pyMulConst (x : PyFloat) (k : ℚ) : PyFloat :=
  match x with
  | PyFloat.val q => PyFloat.val (q * k)
  | PyFloat.nan => PyFloat.nan
  | PyFloat.inf => PyFloat.inf

/-- The completeness metric of the Sample Data section (app.py lines
242, 246, 250): `column.notna().sum() / len(df_clean) * 100` as numpy
evaluates it.  `present` decides `notna()` for the chosen column. -/
def completeness (present : CleanedRecord → Bool)
    (rows : List CleanedRecord) : PyFloat :=
  pyMulConst (npDivNat (rows.countP present) rows.length) 100

/-! Concrete datasets used to exercise the operations, including the
end-to-end example of the specification (two spellings of one journal
and one unparseable date). -/

/-- Raw rows of the specification's end-to-end example. -/
def rawExample : List RawRecord :=
  [{ title := none, abstract := none, journal := some "Nature",
     publish_time := some "2020-03-05", source_x := none },
   { title := none, abstract := none, journal := some "nature ",
     publish_time := some "2020-03-09", source_x := none },
   { title := none, abstract := none, journal := some "Lancet",
     publish_time := some "bad-date", source_x := none }]

/-- The example rows after cleaning. -/
def rowsExample : List CleanedRecord :=
  rawExample.map cleanRecord

/-- Analyzer state after loading and cleaning the example rows. -/
def sExample : AnalyzerState :=
  (clean_data { df := some rawExample, df_clean := none }).1

/-- Eleven identical titled rows: both title words occur 11 times, so
both survive the `count > 10` filter of the word-frequency table. -/
def rawWordy : List RawRecord :=
  List.replicate 11
    { title := some "covid pandemic", abstract := none, journal := none,
      publish_time := none, source_x := none }

/-- The wordy rows after cleaning. -/
def rowsWordy : List CleanedRecord :=
  rawWordy.map cleanRecord

/-- Analyzer state after loading and cleaning the wordy rows. -/
def sWordy : AnalyzerState :=
  (clean_data { df := some rawWordy, df_clean := none }).1

/-- A raw row whose `publish_time` does not parse as a date. -/
def rawBadDate : RawRecord :=
  { title := none, abstract := none, journal := none,
    publish_time := some "bad-date", source_x := none }

/-- Analyzer state after a successful load but before cleaning. -/
def sLoadedOnly : AnalyzerState :=
  { df := some rawExample, df_clean := none }

/-! Theorems. -/

/-- Every entry of the `filtered_words` mapping passed the stop-word and
count filter. -/
theorem filteredWordsOf_mem {cells : List (Option String)} {w : String}
    {n : Nat} (h : (w, n) ∈ filteredWordsOf cells) :
    stop_words.contains w = false ∧ 10 < n := by
  unfold filteredWordsOf at h
  have h2 := (List.mem_filter.mp h).2
  simp only [Bool.and_eq_true, Bool.not_eq_true', decide_eq_true_eq] at h2
  exact h2

/-- C1: on an empty dataset the completeness metric of each of the
three columns the app reports (title, abstract, journal) evaluates to
the degenerate numpy value `nan` — `notna().sum()` is a numpy integer,
so `0 / 0` yields `nan` under a suppressed warning; no division-by-zero
exception is raised (the computation is total). -/
theorem completeness_empty_dataset_defined :
    completeness (fun r => r.title.isSome) [] = PyFloat.nan ∧
    completeness (fun r => r.abstract.isSome) [] = PyFloat.nan ∧
    completeness (fun r => r.journal.isSome) [] = PyFloat.nan :=
  ⟨rfl, rfl, rfl⟩

/-- C2, counterexample: with `top_n = -1 < 1` on the cleaned example
dataset, `analyze_journals` returns the one-entry table
`[("nature", 2)]` (pandas `head(-1)` drops only the last row), not the
empty table the claim requires. -/
theorem analyze_journals_negative_top_n_counterexample :
    (-1 : Int) < 1 ∧
    (analyze_journals (-1) sExample).2 = some [("nature", 2)] ∧
    some [("nature", 2)] ≠ some ([] : List (String × Nat)) :=
  ⟨by decide, by decide, by simp⟩

/-- C2, amended: after cleaning, `analyze_journals top_n` with
`top_n = 0` returns the empty table, and with `top_n < 0` returns the
ranked journal table minus its last `|top_n|` entries (pandas `head`
slice semantics) — which is empty only when `|top_n|` reaches the
table's length. -/
theorem analyze_journals_nonpositive_top_n (s : AnalyzerState)
    (rows : List CleanedRecord) (n : Int) (h : s.df_clean = some rows)
    (hn : n < 1) :
    (n = 0 → (analyze_journals n s).2 = some []) ∧
    (n < 0 → (analyze_journals n s).2 =
      some ((journalTable rows).take ((journalTable rows).length - n.natAbs))) := by
  constructor
  · intro h0
    subst h0
    simp [analyze_journals, h, pdHead]
  · intro hneg
    have hx : ¬ (0 ≤ n) := by omega
    simp [analyze_journals, h, pdHead, hx]

/-- C2, amended, witness at `top_n = -1` on the example dataset. -/
theorem analyze_journals_nonpositive_top_n_witness :
    sExample.df_clean = some rowsExample ∧ (-1 : Int) < 1 ∧ (-1 : Int) < 0 ∧
    (analyze_journals (-1) sExample).2 =
      some ((journalTable rowsExample).take
        ((journalTable rowsExample).length - (-1 : Int).natAbs)) :=
  ⟨rfl, by decide, by decide,
    (analyze_journals_nonpositive_top_n sExample rowsExample (-1) rfl
      (by decide)).2 (by decide)⟩

/-- C3, counterexample: on the wordy dataset with `max_words = 1`,
`create_word_cloud` returns a mapping with 2 entries —
`filtered_words` is returned untruncated, `max_words` only
parameterizes the rendered figure — refuting the claim that it has at
most `max_words` entries. -/
theorem create_word_cloud_max_words_counterexample :
    (create_word_cloud TextCol.title 1 sWordy).2 =
      WordCloudOutcome.table [("covid", 11), ("pandemic", 11)] ∧
    ¬ ([("covid", 11), ("pandemic", 11)].length ≤ 1) :=
  ⟨by decide, by decide⟩

/-- C3, amended: after cleaning, when the `filtered_words` table is
nonempty `create_word_cloud` returns it in full (every qualifying word
with its count), independently of `max_words`, which bounds only the
rendered word-cloud figure; when the table is empty,
`generate_from_frequencies` raises `ValueError` and nothing is
returned — again independently of `max_words`. -/
theorem create_word_cloud_returns_untruncated (s : AnalyzerState)
    (rows : List CleanedRecord) (col : TextCol) (mw mw' : Nat)
    (h : s.df_clean = some rows) :
    (filteredWordsOf (rows.map (extractCol col)) ≠ [] →
      (create_word_cloud col mw s).2 =
        WordCloudOutcome.table (filteredWordsOf (rows.map (extractCol col)))) ∧
    (filteredWordsOf (rows.map (extractCol col)) = [] →
      (create_word_cloud col mw s).2 = WordCloudOutcome.valueError) ∧
    (create_word_cloud col mw s).2 = (create_word_cloud col mw' s).2 := by
  refine ⟨fun hne => ?_, fun he => ?_, ?_⟩
  · simp [create_word_cloud, h, List.isEmpty_iff, hne]
  · simp [create_word_cloud, h, he]
  · simp only [create_word_cloud, h]

/-- C3, amended, witness on the wordy dataset (nonempty table) with
`max_words` 1 and 200. -/
theorem create_word_cloud_returns_untruncated_witness :
    sWordy.df_clean = some rowsWordy ∧
    filteredWordsOf (rowsWordy.map (extractCol TextCol.title)) ≠ [] ∧
    (create_word_cloud TextCol.title 1 sWordy).2 =
      WordCloudOutcome.table
        (filteredWordsOf (rowsWordy.map (extractCol TextCol.title))) ∧
    (create_word_cloud TextCol.title 1 sWordy).2 =
      (create_word_cloud TextCol.title 200 sWordy).2 :=
  ⟨rfl, by decide,
    (create_word_cloud_returns_untruncated sWordy rowsWordy TextCol.title
      1 200 rfl).1 (by decide),
    (create_word_cloud_returns_untruncated sWordy rowsWordy TextCol.title
      1 200 rfl).2.2⟩

/-- C4: for every cleaned dataset, text column and `max_words`, every
entry of the mapping `create_word_cloud` returns is outside the
stop-word set and carries a count strictly greater than 10. -/
theorem create_word_cloud_stop_word_free (s : AnalyzerState)
    (rows : List CleanedRecord) (col : TextCol) (mw : Nat) (w : String)
    (n : Nat) (h : s.df_clean = some rows)
    (hm : (w, n) ∈ ((create_word_cloud col mw s).2).tableD) :
    stop_words.contains w = false ∧ 10 < n := by
  simp only [create_word_cloud, h] at hm
  split at hm
  · simp [WordCloudOutcome.tableD] at hm
  · exact filteredWordsOf_mem (by simpa [WordCloudOutcome.tableD] using hm)

/-- C4, witness: the word "covid" occurs 11 times in the wordy dataset
and appears in the returned mapping. -/
theorem create_word_cloud_stop_word_free_witness :
    sWordy.df_clean = some rowsWordy ∧
    ("covid", 11) ∈ ((create_word_cloud TextCol.title 100 sWordy).2).tableD ∧
    (stop_words.contains "covid" = false ∧ 10 < 11) :=
  ⟨rfl, by decide,
    create_word_cloud_stop_word_free sWordy rowsWordy TextCol.title 100
      "covid" 11 rfl (by decide)⟩

/-- C5: for every successfully loaded raw dataset, `clean_data` builds
the cleaned sequence as a per-row map of the raw sequence, so it has
exactly the same number of rows — no row is dropped or added, whatever
the rows contain. -/
theorem clean_data_preserves_row_count (s : AnalyzerState)
    (rows : List RawRecord) (h : s.df = some rows) :
    (clean_data s).1.df_clean = some (rows.map cleanRecord) ∧
    (rows.map cleanRecord).length = rows.length := by
  simp [clean_data, h]

/-- C5, witness on the example dataset (3 rows in, 3 rows out). -/
theorem clean_data_preserves_row_count_witness :
    (AnalyzerState.mk (some rawExample) none).df = some rawExample ∧
    ((clean_data (AnalyzerState.mk (some rawExample) none)).1.df_clean =
        some (rawExample.map cleanRecord) ∧
      (rawExample.map cleanRecord).length = rawExample.length) :=
  ⟨rfl, clean_data_preserves_row_count (AnalyzerState.mk (some rawExample) none)
    rawExample rfl⟩

/-- C6: for every raw row whose `publish_time` fails to parse, the
cleaned row's `year` and `month` are absent (`none`, never a sentinel
such as 1970); `cleanRecord` is a total function, so the row raises no
error. -/
theorem clean_record_unparseable_date (r : RawRecord)
    (h : parseDate? r.publish_time = none) :
    (cleanRecord r).year = none ∧ (cleanRecord r).month = none := by
  simp [cleanRecord, h]

/-- C6, witness on the `"bad-date"` row. -/
theorem clean_record_unparseable_date_witness :
    parseDate? rawBadDate.publish_time = none ∧
    ((cleanRecord rawBadDate).year = none ∧
      (cleanRecord rawBadDate).month = none) :=
  ⟨rfl, clean_record_unparseable_date rawBadDate rfl⟩

/-- C7: cleaning is deterministic and idempotent — running `clean_data`
a second time on the state it produced (the raw dataset is untouched by
the first run) returns the same cleaned sequence and stores the same
`df_clean`. -/
theorem clean_data_idempotent (s : AnalyzerState) (rows : List RawRecord)
    (h : s.df = some rows) :
    (clean_data (clean_data s).1).1.df_clean = (clean_data s).1.df_clean ∧
    (clean_data (clean_data s).1).2 = (clean_data s).2 := by
  simp [clean_data, h]

/-- C7, witness on the example dataset. -/
theorem clean_data_idempotent_witness :
    (AnalyzerState.mk (some rawExample) none).df = some rawExample ∧
    ((clean_data (clean_data (AnalyzerState.mk (some rawExample) none)).1).1.df_clean =
        (clean_data (AnalyzerState.mk (some rawExample) none)).1.df_clean ∧
      (clean_data (clean_data (AnalyzerState.mk (some rawExample) none)).1).2 =
        (clean_data (AnalyzerState.mk (some rawExample) none)).2) :=
  ⟨rfl, clean_data_idempotent (AnalyzerState.mk (some rawExample) none)
    rawExample rfl⟩

/-- C8: whenever reading the file fails (missing, unreadable or
unparsable), `load_data` returns `false` and the state is exactly the
prior state — the assignment to `self.df` happens only after a
successful read, so no partial state is retained; the exception is
caught inside the operation (the embedding is total). -/
theorem load_data_failure_no_partial_state
    (fs : String → Option (List RawRecord)) (path : String)
    (s : AnalyzerState) (h : fs path = none) :
    load_data fs path s = (s, false) := by
  simp [load_data, h]

/-- C8, witness: a file system with no readable file, starting from a
state that already holds a previously loaded dataset. -/
theorem load_data_failure_no_partial_state_witness :
    (fun _ : String => (none : Option (List RawRecord))) "data/metadata.csv"
        = none ∧
    load_data (fun _ => none) "data/metadata.csv"
        (AnalyzerState.mk (some rawExample) none) =
      (AnalyzerState.mk (some rawExample) none, false) :=
  ⟨rfl, load_data_failure_no_partial_state (fun _ => none) "data/metadata.csv"
    (AnalyzerState.mk (some rawExample) none) rfl⟩

/-- C9: `clean_data` works on a copy and never mutates the raw dataset:
the stored raw table (hence every field of every raw record) is the
same after the call as before it, on every state. -/
theorem clean_data_preserves_raw (s : AnalyzerState) :
    (clean_data s).1.df = s.df := by
  cases h : s.df <;> simp [clean_data, h]

/-- C10: before cleaning has succeeded (`df_clean` still absent), each
analytical operation — publications over time, journals, word cloud,
sources, sample — returns the distinguished not-ready result `none`
and leaves the analyzer state unchanged, for every parameter value. -/
theorem analyses_before_clean_not_ready (s : AnalyzerState)
    (h : s.df_clean = none) :
    analyze_publications_over_time s = (s, none) ∧
    (∀ n : Int, analyze_journals n s = (s, none)) ∧
    (∀ col mw, create_word_cloud col mw s = (s, WordCloudOutcome.noneReturn)) ∧
    analyze_sources s = (s, none) ∧
    (∀ n : Int, get_sample_data n s = (s, none)) := by
  refine ⟨?_, ?_, ?_, ?_, ?_⟩ <;>
    intros <;>
    simp [analyze_publications_over_time, analyze_journals, create_word_cloud,
      analyze_sources, get_sample_data, h]

/-- C10, witness: a loaded-but-not-cleaned state, with three of the
operations instantiated at concrete parameters. -/
theorem analyses_before_clean_not_ready_witness :
    sLoadedOnly.df_clean = none ∧
    analyze_journals 5 sLoadedOnly = (sLoadedOnly, none) ∧
    create_word_cloud TextCol.abstract 100 sLoadedOnly =
      (sLoadedOnly, WordCloudOutcome.noneReturn) ∧
    get_sample_data 5 sLoadedOnly = (sLoadedOnly, none) :=
  ⟨rfl, (analyses_before_clean_not_ready sLoadedOnly rfl).2.1 5,
    (analyses_before_clean_not_ready sLoadedOnly rfl).2.2.1 TextCol.abstract 100,
    (analyses_before_clean_not_ready sLoadedOnly rfl).2.2.2.2 5⟩

end CORD19
